import Mathlib

/-!
Shallow embedding of `make_admin.py`: a two-step script that logs in against
an HTTP service and then calls an admin-promotion endpoint with the bearer
token.  Python dictionaries parsed from JSON are modelled by `JValue`; each
`print(...)` call in the script becomes one entry of a `List String`;
uncaught Python exceptions (for example `AttributeError` from calling
`.get` on a non-dict) are modelled by the `Except String` error branch.
-/

set_option autoImplicit false

namespace MakeAdmin

/-- A parsed JSON value, as produced by `response.json()` in Python.
Object fields are an association list; parsed JSON objects have distinct
keys, `List.lookup` finds the binding. -/
inductive JValue where
  | null
  | bool (b : Bool)
  | num (n : Int)
  | str (s : String)
  | arr (xs : List JValue)
  | obj (fields : List (String × JValue))

/-- Python truthiness (`if data.get("success"):` and `if not token:` in the
script): `None`, `False`, `0`, the empty string, the empty list and the
empty dict are falsy, everything else is truthy. -/
def truthy : JValue → Bool
  | .null => false
  | .bool b => b
  | .num n => n != 0
  | .str s => s != ""
  | .arr xs => !xs.isEmpty
  | .obj fs => !fs.isEmpty

mutual

/-- Python `str(...)`, as used by f-string interpolation in the script.
Scalar values follow Python exactly (`None`, `True`, `False`, the digits,
the raw string).  Composite values are rendered structurally without the
repr quoting Python applies inside containers; no interpolated value in
the script is composite on any path a claim touches. -/
def pyStr : JValue → String
  | .null => "None"
  | .bool true => "True"
  | .bool false => "False"
  | .num n => toString n
  | .str s => s
  | .arr xs => "[" ++ pyStrList xs ++ "]"
  | .obj fs => "\x7b" ++ pyStrFields fs ++ "\x7d"

/-- Comma-separated rendering of a JSON array body; helper of `pyStr`. -/
def pyStrList : List JValue → String
  | [] => ""
  | [x] => pyStr x
  | x :: xs => pyStr x ++ ", " ++ pyStrList xs

/-- Comma-separated rendering of JSON object fields; helper of `pyStr`. -/
def pyStrFields : List (String × JValue) → String
  | [] => ""
  | [(k, v)] => k ++ ": " ++ pyStr v
  | (k, v) :: fs => k ++ ": " ++ pyStr v ++ ", " ++ pyStrFields fs

end

/-- Python `v.get(k, d)` (`v.get(k)` is `d = null`): on a dict it returns
the value bound to `k`, or the default `d` when the key is absent; on any
non-dict value it raises `AttributeError`, which the script never
catches. -/
def JValue.pyGet (v : JValue) (k : String) (d : JValue) : Except String JValue :=
  match v with
  | .obj fields => .ok ((fields.lookup k).getD d)
  | _ => .error "AttributeError: get called on a non-dict value"

/-- Outcome of one `requests.post(...)` call, as seen by the script.
`requests` lives outside this repository; following the spec, the client
either raises a `RequestException` before a response is available
(connection error, timeout) — `connErr` with the exception text — or
delivers a response with an HTTP status code and a parsed JSON body. -/
inductive Resp where
  | connErr (msg : String)
  | resp (status : Nat) (body : JValue)

/-- Whether an HTTP status code is a 2xx success code. -/
def is2xx (s : Nat) : Bool := 200 ≤ s && s < 300

/-- Modelled from the spec: the text of the `HTTPError` that
`response.raise_for_status()` raises on a non-2xx status.  The spec fixes
only that the failure is reported, not the message wording. -/
def httpErrorMsg (s : Nat) : String := toString s ++ " Error for request"

def BASE_URL : String := "https://web-production-5dffa.up.railway.app"

def EMAIL : String := "omarAbdelghany56@gmail.com"

def PASSWORD : String := "omarAbdelghany56@gmail.com"

/-- `login()` from `make_admin.py`.  Takes the outcome of the POST to
`/api/auth/login` and returns the Python return value (the token, or
`None`) together with the printed lines; the `Except` error branch is an
uncaught exception escaping the function. -/
def login (r : Resp) : Except String (JValue × List String) :=
  let l0 := "🔐 Logging in..."
  match r with
  | .connErr e => .ok (.null, [l0, "❌ Login request failed: " ++ e])
  | .resp s body =>
    if is2xx s = false then
      .ok (.null, [l0, "❌ Login request failed: " ++ httpErrorMsg s])
    else
      match body.pyGet "success" .null with
      | .error msg => .error msg
      | .ok succ =>
        if truthy succ then
          match body.pyGet "token" .null, body.pyGet "user" (.obj []) with
          | .error msg, _ => .error msg
          | _, .error msg => .error msg
          | .ok token, .ok user =>
            match user.pyGet "username" (.str "User") with
            | .error msg => .error msg
            | .ok uname =>
              .ok (token, [l0, "✅ Login successful! Welcome " ++ pyStr uname])
        else
          match body.pyGet "error" (.str "Unknown error") with
          | .error msg => .error msg
          | .ok err =>
            .ok (.null, [l0, "❌ Login failed: " ++ pyStr err])

/-- The `Authorization` and `Content-Type` headers `make_admin` sends. -/
def adminHeaders (token : JValue) : List (String × String) :=
  [("Authorization", "Bearer " ++ pyStr token),
   ("Content-Type", "application/json")]

/-- The lines printed on the success branch of `make_admin`, after the
server message line. -/
def nextStepsLines : List String :=
  ["\n📝 Next steps:",
   "1. Logout from the web app",
   "2. Login again at: https://web-production-5dffa.up.railway.app/login",
   "3. Access dashboard at: https://web-production-5dffa.up.railway.app/dashboard"]

/-- `make_admin(token)` from `make_admin.py`.  Takes the token and the
outcome of the POST to `/api/admin/make-me-admin` and returns the Python
return value (`True` or `False`) together with the printed lines. -/
def make_admin (token : JValue) (r : Resp) : Except String (Bool × List String) :=
  let l0 := "\n🛡️  Making user admin..."
  let _headers := adminHeaders token
  match r with
  | .connErr e => .ok (false, [l0, "❌ Make admin request failed: " ++ e])
  | .resp s body =>
    if is2xx s = false then
      .ok (false, [l0, "❌ Make admin request failed: " ++ httpErrorMsg s])
    else
      match body.pyGet "success" .null with
      | .error msg => .error msg
      | .ok succ =>
        if truthy succ then
          match body.pyGet "message" (.str "Success!") with
          | .error msg => .error msg
          | .ok message =>
            .ok (true, [l0, "✅ " ++ pyStr message] ++ nextStepsLines)
        else
          match body.pyGet "error" (.str "Unknown error") with
          | .error msg => .error msg
          | .ok err =>
            .ok (false, [l0, "❌ Failed to make admin: " ++ pyStr err])

/-- The `"=" * 60` separator line. -/
def eqLine : String := String.mk (List.replicate 60 (Char.ofNat 61))

/-- The three header lines `main()` prints first. -/
def headerLines : List String :=
  [eqLine, "WhatsApp Analytics - Make User Admin", eqLine]

/-- `main()` from `make_admin.py`.  `loginR` is the outcome of the login
POST; `adminR` the outcome of the admin POST, consulted only if the
script reaches the `make_admin` call.  Returns all printed lines; `.ok`
is a normal return from `main`, `.error` an uncaught exception. -/
def main (loginR adminR : Resp) : Except String (List String) :=
  match login loginR with
  | .error msg => .error msg
  | .ok (token, loginLines) =>
    if truthy token = false then
      .ok (headerLines ++ loginLines ++ ["\n❌ Failed to login. Exiting."])
    else
      match make_admin token adminR with
      | .error msg => .error msg
      | .ok (success, adminLines) =>
        if success then
          .ok (headerLines ++ loginLines ++ adminLines ++
            ["\n" ++ eqLine, "🎉 All done! You are now an admin.", eqLine])
        else
          .ok (headerLines ++ loginLines ++ adminLines ++
            ["\n❌ Failed to complete the process."])

/-! ### Helper definitions and lemmas for the claim statements -/

/-- The value of field `k` of a JSON object with fields `fs`, with default
`d`: what `dict.get(k, d)` returns on a dict. -/
def fieldD (fs : List (String × JValue)) (k : String) (d : JValue) : JValue :=
  (fs.lookup k).getD d

/-- The `user` field of the login body, when present, is a JSON object (or
is absent).  On any other shape the script raises `AttributeError` at
`user.get(...)`, a path the spec leaves unspecified. -/
def userOK (fs : List (String × JValue)) : Prop :=
  fs.lookup "user" = none ∨ ∃ ufs, fs.lookup "user" = some (.obj ufs)

/-- The value the greeting interpolates: `username` from the `user` object
when present, else the placeholder `"User"`. -/
def usernameOf (fs : List (String × JValue)) : JValue :=
  match (fs.lookup "user").getD (.obj []) with
  | .obj ufs => (ufs.lookup "username").getD (.str "User")
  | _ => .str "User"

theorem login_connErr (e : String) :
    login (.connErr e) =
      .ok (.null, ["🔐 Logging in...", "❌ Login request failed: " ++ e]) := rfl

theorem login_non2xx (s : Nat) (body : JValue) (h : is2xx s = false) :
    login (.resp s body) =
      .ok (.null,
        ["🔐 Logging in...", "❌ Login request failed: " ++ httpErrorMsg s]) := by
  simp [login, h]

theorem login_obj_success (s : Nat) (fs : List (String × JValue))
    (h1 : is2xx s = true) (h2 : truthy (fieldD fs "success" .null) = true)
    (hu : userOK fs) :
    login (.resp s (.obj fs)) =
      .ok (fieldD fs "token" .null,
        ["🔐 Logging in...",
         "✅ Login successful! Welcome " ++ pyStr (usernameOf fs)]) := by
  rcases hu with h | ⟨ufs, h⟩ <;>
    simp [login, JValue.pyGet, fieldD, usernameOf, h1, h2, h] at *

theorem login_obj_failure (s : Nat) (fs : List (String × JValue))
    (h1 : is2xx s = true) (h2 : truthy (fieldD fs "success" .null) = false) :
    login (.resp s (.obj fs)) =
      .ok (.null,
        ["🔐 Logging in...",
         "❌ Login failed: " ++ pyStr (fieldD fs "error" (.str "Unknown error"))]) := by
  simp [login, JValue.pyGet, fieldD, h1, h2] at *

theorem make_admin_connErr (t : JValue) (e : String) :
    make_admin t (.connErr e) =
      .ok (false,
        ["\n🛡️  Making user admin...", "❌ Make admin request failed: " ++ e]) := rfl

theorem make_admin_non2xx (t : JValue) (s : Nat) (body : JValue)
    (h : is2xx s = false) :
    make_admin t (.resp s body) =
      .ok (false,
        ["\n🛡️  Making user admin...",
         "❌ Make admin request failed: " ++ httpErrorMsg s]) := by
  simp [make_admin, h]

theorem make_admin_obj_success (t : JValue) (s : Nat)
    (fs : List (String × JValue))
    (h1 : is2xx s = true) (h2 : truthy (fieldD fs "success" .null) = true) :
    make_admin t (.resp s (.obj fs)) =
      .ok (true,
        ["\n🛡️  Making user admin...",
         "✅ " ++ pyStr (fieldD fs "message" (.str "Success!"))] ++
        nextStepsLines) := by
  simp [make_admin, JValue.pyGet, fieldD, h1, h2] at *

theorem make_admin_obj_failure (t : JValue) (s : Nat)
    (fs : List (String × JValue))
    (h1 : is2xx s = true) (h2 : truthy (fieldD fs "success" .null) = false) :
    make_admin t (.resp s (.obj fs)) =
      .ok (false,
        ["\n🛡️  Making user admin...",
         "❌ Failed to make admin: " ++
           pyStr (fieldD fs "error" (.str "Unknown error"))]) := by
  simp [make_admin, JValue.pyGet, fieldD, h1, h2] at *

theorem main_login_fail (r a : Resp) (t : JValue) (L : List String)
    (hl : login r = .ok (t, L)) (ht : truthy t = false) :
    main r a = .ok (headerLines ++ L ++ ["\n❌ Failed to login. Exiting."]) := by
  simp [main, hl, ht]

theorem main_admin_done (r a : Resp) (t : JValue) (L : List String)
    (b : Bool) (M : List String)
    (hl : login r = .ok (t, L)) (ht : truthy t = true)
    (ha : make_admin t a = .ok (b, M)) :
    main r a =
      .ok (headerLines ++ L ++ M ++
        (if b then ["\n" ++ eqLine, "🎉 All done! You are now an admin.", eqLine]
         else ["\n❌ Failed to complete the process."])) := by
  cases b <;> simp [main, hl, ht, ha]

/-! ### Claim theorems -/

/-- C1: for every login response with a 2xx status whose parsed body has
`success == true`, `login()` returns the token field of the body and
prints a greeting interpolating `user.username` when present, else the
placeholder `"User"`. -/
theorem c1_login_success_greeting (s : Nat) (fs : List (String × JValue))
    (hs : is2xx s = true)
    (hsucc : fs.lookup "success" = some (.bool true))
    (hu : userOK fs) :
    login (.resp s (.obj fs)) =
      .ok (fieldD fs "token" .null,
        ["🔐 Logging in...",
         "✅ Login successful! Welcome " ++ pyStr (usernameOf fs)]) ∧
    (∀ ufs u, fs.lookup "user" = some (.obj ufs) →
        ufs.lookup "username" = some (.str u) → pyStr (usernameOf fs) = u) ∧
    (fs.lookup "user" = none → pyStr (usernameOf fs) = "User") ∧
    (∀ ufs, fs.lookup "user" = some (.obj ufs) →
        ufs.lookup "username" = none → pyStr (usernameOf fs) = "User") := by
  refine ⟨login_obj_success s fs hs ?_ hu, ?_, ?_, ?_⟩
  · simp [fieldD, hsucc, truthy]
  · intro ufs u h1 h2
    simp [usernameOf, h1, h2, pyStr]
  · intro h
    simp [usernameOf, h, pyStr]
  · intro ufs h1 h2
    simp [usernameOf, h1, h2, pyStr]

/-- Witness for C1 at the body of spec test 1:
`{success: true, token: "T", user: {username: "u"}}`. -/
theorem c1_login_success_greeting_witness :
    login (.resp 200 (.obj [("success", .bool true), ("token", .str "T"),
        ("user", .obj [("username", .str "u")])])) =
      .ok (.str "T",
        ["🔐 Logging in...", "✅ Login successful! Welcome u"]) :=
  (c1_login_success_greeting 200
      [("success", .bool true), ("token", .str "T"),
       ("user", .obj [("username", .str "u")])]
      rfl rfl (Or.inr ⟨_, rfl⟩)).1.trans (by rfl)

/-- C2: for every login response with a 2xx status whose parsed body has
`success == false`, `login()` prints the server error message (falling
back to "Unknown error" when the `error` field is absent) and returns
`None`. -/
theorem c2_login_app_failure (s : Nat) (fs : List (String × JValue))
    (hs : is2xx s = true)
    (hsucc : fs.lookup "success" = some (.bool false)) :
    login (.resp s (.obj fs)) =
      .ok (.null,
        ["🔐 Logging in...",
         "❌ Login failed: " ++
           pyStr (fieldD fs "error" (.str "Unknown error"))]) ∧
    (∀ e, fs.lookup "error" = some (.str e) →
        pyStr (fieldD fs "error" (.str "Unknown error")) = e) ∧
    (fs.lookup "error" = none →
        pyStr (fieldD fs "error" (.str "Unknown error")) = "Unknown error") := by
  refine ⟨login_obj_failure s fs hs ?_, ?_, ?_⟩
  · simp [fieldD, hsucc, truthy]
  · intro e h
    simp [fieldD, h, pyStr]
  · intro h
    simp [fieldD, h, pyStr]

/-- Witness for C2 at the body of spec test 2:
`{success: false, error: "bad creds"}`. -/
theorem c2_login_app_failure_witness :
    login (.resp 200 (.obj [("success", .bool false),
        ("error", .str "bad creds")])) =
      .ok (.null, ["🔐 Logging in...", "❌ Login failed: bad creds"]) :=
  (c2_login_app_failure 200
      [("success", .bool false), ("error", .str "bad creds")]
      rfl rfl).1.trans (by rfl)

/-- C3: on every transport-level failure of the login POST — a raised
connection error or timeout, or a non-2xx status (which
`raise_for_status` turns into a raised error) — `login()` catches the
exception, prints a failure message, and returns `None` normally (the
result is `.ok`, no exception escapes). -/
theorem c3_login_transport_failure :
    (∀ e, login (.connErr e) =
      .ok (.null,
        ["🔐 Logging in...", "❌ Login request failed: " ++ e])) ∧
    (∀ s body, is2xx s = false →
      login (.resp s body) =
        .ok (.null,
          ["🔐 Logging in...",
           "❌ Login request failed: " ++ httpErrorMsg s])) :=
  ⟨login_connErr, login_non2xx⟩

/-- Witness for C3: a refused connection and a 500 response. -/
theorem c3_login_transport_failure_witness :
    login (.connErr "connection refused") =
      .ok (.null,
        ["🔐 Logging in...",
         "❌ Login request failed: connection refused"]) ∧
    login (.resp 500 .null) =
      .ok (.null,
        ["🔐 Logging in...",
         "❌ Login request failed: " ++ httpErrorMsg 500]) :=
  ⟨c3_login_transport_failure.1 "connection refused",
   c3_login_transport_failure.2 500 .null rfl⟩

/-- C4: for every admin response with a 2xx status whose parsed body has
`success == true`, `make_admin()` returns `True` and prints the server
`message` field (falling back to "Success!" when absent) followed by the
static follow-up lines (logout, re-login URL, dashboard URL). -/
theorem c4_admin_success (t : JValue) (s : Nat) (fs : List (String × JValue))
    (hs : is2xx s = true)
    (hsucc : fs.lookup "success" = some (.bool true)) :
    make_admin t (.resp s (.obj fs)) =
      .ok (true,
        ["\n🛡️  Making user admin...",
         "✅ " ++ pyStr (fieldD fs "message" (.str "Success!"))] ++
        nextStepsLines) ∧
    (∀ m, fs.lookup "message" = some (.str m) →
        pyStr (fieldD fs "message" (.str "Success!")) = m) ∧
    (fs.lookup "message" = none →
        pyStr (fieldD fs "message" (.str "Success!")) = "Success!") := by
  refine ⟨make_admin_obj_success t s fs hs ?_, ?_, ?_⟩
  · simp [fieldD, hsucc, truthy]
  · intro m h
    simp [fieldD, h, pyStr]
  · intro h
    simp [fieldD, h, pyStr]

/-- Witness for C4 at the body of spec test 4:
`{success: true, message: "done"}`. -/
theorem c4_admin_success_witness :
    make_admin (.str "T") (.resp 200 (.obj [("success", .bool true),
        ("message", .str "done")])) =
      .ok (true,
        ["\n🛡️  Making user admin...", "✅ done"] ++ nextStepsLines) :=
  (c4_admin_success (.str "T") 200
      [("success", .bool true), ("message", .str "done")]
      rfl rfl).1.trans (by rfl)

/-- C5: on the expected paths `make_admin()` never raises and returns
`False` in exactly two cases: a transport failure (raised connection
error or non-2xx status) with a printed failure message, or a 2xx object
body whose `success` field is falsy, with the server `error` (fallback
"Unknown error") printed; on a 2xx object body with truthy `success` it
returns `True`. -/
theorem c5_admin_false_exactly (t : JValue) :
    (∀ e, make_admin t (.connErr e) =
      .ok (false,
        ["\n🛡️  Making user admin...",
         "❌ Make admin request failed: " ++ e])) ∧
    (∀ s body, is2xx s = false →
      make_admin t (.resp s body) =
        .ok (false,
          ["\n🛡️  Making user admin...",
           "❌ Make admin request failed: " ++ httpErrorMsg s])) ∧
    (∀ s fs, is2xx s = true → truthy (fieldD fs "success" .null) = false →
      make_admin t (.resp s (.obj fs)) =
        .ok (false,
          ["\n🛡️  Making user admin...",
           "❌ Failed to make admin: " ++
             pyStr (fieldD fs "error" (.str "Unknown error"))])) ∧
    (∀ s fs, is2xx s = true → truthy (fieldD fs "success" .null) = true →
      make_admin t (.resp s (.obj fs)) =
        .ok (true,
          ["\n🛡️  Making user admin...",
           "✅ " ++ pyStr (fieldD fs "message" (.str "Success!"))] ++
          nextStepsLines)) :=
  ⟨make_admin_connErr t, make_admin_non2xx t,
   make_admin_obj_failure t, make_admin_obj_success t⟩

/-- Witness for C5: a 2xx body `{success: false, error: "not authorized"}`
and a refused connection. -/
theorem c5_admin_false_exactly_witness :
    make_admin (.str "T") (.resp 200 (.obj [("success", .bool false),
        ("error", .str "not authorized")])) =
      .ok (false,
        ["\n🛡️  Making user admin...",
         "❌ Failed to make admin: " ++
           pyStr (fieldD [("success", .bool false),
             ("error", .str "not authorized")] "error"
             (.str "Unknown error"))]) ∧
    make_admin (.str "T") (.connErr "connection refused") =
      .ok (false,
        ["\n🛡️  Making user admin...",
         "❌ Make admin request failed: connection refused"]) :=
  ⟨(c5_admin_false_exactly (.str "T")).2.2.1 200
      [("success", .bool false), ("error", .str "not authorized")] rfl rfl,
   (c5_admin_false_exactly (.str "T")).1 "connection refused"⟩

/-- C6: when `login()` returns a falsy token, `main()` prints the login
failure banner and returns normally, and its result does not depend on
the outcome the admin endpoint would give — the admin endpoint is never
contacted. -/
theorem c6_login_gate (r : Resp) (t : JValue) (L : List String)
    (hl : login r = .ok (t, L)) (ht : truthy t = false) :
    (∀ a, main r a =
      .ok (headerLines ++ L ++ ["\n❌ Failed to login. Exiting."])) ∧
    (∀ a a2, main r a = main r a2) := by
  refine ⟨fun a => main_login_fail r a t L hl ht, fun a a2 => ?_⟩
  rw [main_login_fail r a t L hl ht, main_login_fail r a2 t L hl ht]

/-- Witness for C6: a failed login connection; the admin outcome argument
is interchangeable. -/
theorem c6_login_gate_witness :
    main (.connErr "down") (.resp 200 (.obj [("success", .bool true)])) =
      .ok (headerLines ++
        ["🔐 Logging in...", "❌ Login request failed: down"] ++
        ["\n❌ Failed to login. Exiting."]) ∧
    main (.connErr "down") (.resp 200 (.obj [("success", .bool true)])) =
      main (.connErr "down") (.connErr "never reached") :=
  ⟨(c6_login_gate (.connErr "down") .null
      ["🔐 Logging in...", "❌ Login request failed: down"] rfl rfl).1
      (.resp 200 (.obj [("success", .bool true)])),
   (c6_login_gate (.connErr "down") .null
      ["🔐 Logging in...", "❌ Login request failed: down"] rfl rfl).2
      (.resp 200 (.obj [("success", .bool true)])) (.connErr "never reached")⟩

/-- C7: once login yields a truthy token, `main()` appends the final
success banner exactly when `make_admin()` returned `True`, and the final
failure line exactly when it returned `False`. -/
theorem c7_final_banner (r a : Resp) (t : JValue) (L M : List String)
    (b : Bool)
    (hl : login r = .ok (t, L)) (ht : truthy t = true)
    (ha : make_admin t a = .ok (b, M)) :
    (b = true → main r a =
      .ok (headerLines ++ L ++ M ++
        ["\n" ++ eqLine, "🎉 All done! You are now an admin.", eqLine])) ∧
    (b = false → main r a =
      .ok (headerLines ++ L ++ M ++
        ["\n❌ Failed to complete the process."])) := by
  have h := main_admin_done r a t L b M hl ht ha
  constructor <;> intro hb <;> subst hb <;> simpa using h

/-- Witness for C7: both endpoints succeed and the success banner is
printed. -/
theorem c7_final_banner_witness :
    main (.resp 200 (.obj [("success", .bool true), ("token", .str "T")]))
        (.resp 200 (.obj [("success", .bool true)])) =
      .ok (headerLines ++
        ["🔐 Logging in...", "✅ Login successful! Welcome User"] ++
        (["\n🛡️  Making user admin...", "✅ Success!"] ++ nextStepsLines) ++
        ["\n" ++ eqLine, "🎉 All done! You are now an admin.", eqLine]) :=
  (c7_final_banner
      (.resp 200 (.obj [("success", .bool true), ("token", .str "T")]))
      (.resp 200 (.obj [("success", .bool true)]))
      (.str "T")
      ["🔐 Logging in...", "✅ Login successful! Welcome User"]
      (["\n🛡️  Making user admin...", "✅ Success!"] ++ nextStepsLines)
      true rfl rfl rfl).1 rfl

/-- C8: on each expected failure path — login connection failure, login
non-2xx status, login `success == false`, admin connection failure, admin
non-2xx status, admin `success == false` — `main()` returns normally
(`.ok`), communicating the failure only through printed text. -/
theorem c8_normal_completion :
    (∀ e a, ∃ out, main (.connErr e) a = .ok out) ∧
    (∀ s body a, is2xx s = false →
      ∃ out, main (.resp s body) a = .ok out) ∧
    (∀ s fs a, is2xx s = true → truthy (fieldD fs "success" .null) = false →
      ∃ out, main (.resp s (.obj fs)) a = .ok out) ∧
    (∀ r t L e, login r = .ok (t, L) → truthy t = true →
      ∃ out, main r (.connErr e) = .ok out) ∧
    (∀ r t L s body, login r = .ok (t, L) → truthy t = true →
      is2xx s = false → ∃ out, main r (.resp s body) = .ok out) ∧
    (∀ r t L s fs, login r = .ok (t, L) → truthy t = true →
      is2xx s = true → truthy (fieldD fs "success" .null) = false →
      ∃ out, main r (.resp s (.obj fs)) = .ok out) := by
  refine ⟨?_, ?_, ?_, ?_, ?_, ?_⟩
  · intro e a
    exact ⟨_, main_login_fail _ a _ _ (login_connErr e) rfl⟩
  · intro s body a h
    exact ⟨_, main_login_fail _ a _ _ (login_non2xx s body h) rfl⟩
  · intro s fs a h1 h2
    exact ⟨_, main_login_fail _ a _ _ (login_obj_failure s fs h1 h2) rfl⟩
  · intro r t L e hl ht
    exact ⟨_, main_admin_done r _ t L false _ hl ht (make_admin_connErr t e)⟩
  · intro r t L s body hl ht h
    exact ⟨_, main_admin_done r _ t L false _ hl ht
      (make_admin_non2xx t s body h)⟩
  · intro r t L s fs hl ht h1 h2
    exact ⟨_, main_admin_done r _ t L false _ hl ht
      (make_admin_obj_failure t s fs h1 h2)⟩

/-- Witness for C8: a login connection failure, a login `success: false`
body, and an admin connection failure after a successful login. -/
theorem c8_normal_completion_witness :
    (∃ out, main (.connErr "down") (.connErr "x") = .ok out) ∧
    (∃ out, main (.resp 200 (.obj [("success", .bool false)]))
      (.connErr "x") = .ok out) ∧
    (∃ out, main (.resp 200 (.obj [("success", .bool true),
      ("token", .str "T")])) (.connErr "admin down") = .ok out) :=
  ⟨c8_normal_completion.1 "down" (.connErr "x"),
   c8_normal_completion.2.2.1 200 [("success", .bool false)]
     (.connErr "x") rfl rfl,
   c8_normal_completion.2.2.2.1
     (.resp 200 (.obj [("success", .bool true), ("token", .str "T")]))
     (.str "T")
     ["🔐 Logging in...", "✅ Login successful! Welcome User"]
     "admin down" rfl rfl⟩

/-- C9: if a 2xx login body has `success == true` but its `token` field is
missing (so `data.get` yields `None`), `None`, or the empty string,
`login()` returns that falsy value, and `main()` prints the login failure
banner without consulting the admin endpoint. -/
theorem c9_falsy_token (s : Nat) (fs : List (String × JValue))
    (hs : is2xx s = true)
    (hsucc : fs.lookup "success" = some (.bool true))
    (hu : userOK fs)
    (htok : fieldD fs "token" .null = .null ∨
      fieldD fs "token" .null = .str "") :
    login (.resp s (.obj fs)) =
      .ok (fieldD fs "token" .null,
        ["🔐 Logging in...",
         "✅ Login successful! Welcome " ++ pyStr (usernameOf fs)]) ∧
    truthy (fieldD fs "token" .null) = false ∧
    (∀ a, main (.resp s (.obj fs)) a =
      .ok (headerLines ++
        ["🔐 Logging in...",
         "✅ Login successful! Welcome " ++ pyStr (usernameOf fs)] ++
        ["\n❌ Failed to login. Exiting."])) ∧
    (∀ a a2, main (.resp s (.obj fs)) a = main (.resp s (.obj fs)) a2) := by
  have hl := login_obj_success s fs hs (by simp [fieldD, hsucc, truthy]) hu
  have ht : truthy (fieldD fs "token" .null) = false := by
    rcases htok with h | h <;> rw [h] <;> rfl
  refine ⟨hl, ht, fun a => main_login_fail _ a _ _ hl ht, fun a a2 => ?_⟩
  rw [main_login_fail _ a _ _ hl ht, main_login_fail _ a2 _ _ hl ht]

/-- Witness for C9: a 2xx login body `{success: true}` with no token
field. -/
theorem c9_falsy_token_witness :
    main (.resp 200 (.obj [("success", .bool true)])) (.connErr "x") =
      .ok (headerLines ++
        ["🔐 Logging in...",
         "✅ Login successful! Welcome " ++
           pyStr (usernameOf [("success", .bool true)])] ++
        ["\n❌ Failed to login. Exiting."]) :=
  (c9_falsy_token 200 [("success", .bool true)] rfl rfl
      (Or.inl rfl) (Or.inl rfl)).2.2.1 (.connErr "x")

/-- C10: both functions branch on the Python truthiness of the `success`
field, not on equality with `True`: for 2xx object bodies the success
branch is taken exactly when `truthy` of the field (defaulting to `None`)
holds, so the string `"false"` and the number `1` count as success while
a missing `success` field counts as failure. -/
theorem c10_truthiness (t : JValue) :
    (∀ s fs, is2xx s = true → userOK fs →
      truthy (fieldD fs "success" .null) = true →
      login (.resp s (.obj fs)) =
        .ok (fieldD fs "token" .null,
          ["🔐 Logging in...",
           "✅ Login successful! Welcome " ++ pyStr (usernameOf fs)])) ∧
    (∀ s fs, is2xx s = true → truthy (fieldD fs "success" .null) = false →
      login (.resp s (.obj fs)) =
        .ok (.null,
          ["🔐 Logging in...",
           "❌ Login failed: " ++
             pyStr (fieldD fs "error" (.str "Unknown error"))])) ∧
    (∀ s fs, is2xx s = true → truthy (fieldD fs "success" .null) = true →
      make_admin t (.resp s (.obj fs)) =
        .ok (true,
          ["\n🛡️  Making user admin...",
           "✅ " ++ pyStr (fieldD fs "message" (.str "Success!"))] ++
          nextStepsLines)) ∧
    (∀ s fs, is2xx s = true → truthy (fieldD fs "success" .null) = false →
      make_admin t (.resp s (.obj fs)) =
        .ok (false,
          ["\n🛡️  Making user admin...",
           "❌ Failed to make admin: " ++
             pyStr (fieldD fs "error" (.str "Unknown error"))])) ∧
    truthy (.str "false") = true ∧
    truthy (.num 1) = true ∧
    truthy .null = false ∧
    fieldD [] "success" .null = .null ∧
    login (.resp 200 (.obj [("success", .str "false"),
        ("token", .str "TOK")])) =
      .ok (.str "TOK",
        ["🔐 Logging in...", "✅ Login successful! Welcome User"]) ∧
    make_admin t (.resp 200 (.obj [("success", .num 1)])) =
      .ok (true,
        ["\n🛡️  Making user admin...", "✅ Success!"] ++ nextStepsLines) ∧
    login (.resp 200 (.obj [("token", .str "TOK")])) =
      .ok (.null,
        ["🔐 Logging in...", "❌ Login failed: Unknown error"]) ∧
    make_admin t (.resp 200 (.obj [("attempt", .num 2)])) =
      .ok (false,
        ["\n🛡️  Making user admin...",
         "❌ Failed to make admin: Unknown error"]) :=
  ⟨fun s fs h1 hu h2 => login_obj_success s fs h1 h2 hu,
   login_obj_failure, make_admin_obj_success t, make_admin_obj_failure t,
   rfl, rfl, rfl, rfl, rfl, rfl, rfl, rfl⟩

/-- Witness for C10: the general truthiness branches applied at the body
`{success: "yes", token: "TOK"}` and at a body with no `success` field. -/
theorem c10_truthiness_witness :
    login (.resp 200 (.obj [("success", .str "yes"),
        ("token", .str "TOK")])) =
      .ok (.str "TOK",
        ["🔐 Logging in...", "✅ Login successful! Welcome User"]) ∧
    login (.resp 200 (.obj [("attempt", .num 0)])) =
      .ok (.null,
        ["🔐 Logging in...", "❌ Login failed: Unknown error"]) :=
  ⟨((c10_truthiness .null).1 200
      [("success", .str "yes"), ("token", .str "TOK")]
      rfl (Or.inl rfl) rfl).trans (by rfl),
   ((c10_truthiness .null).2.1 200 [("attempt", .num 0)]
      rfl rfl).trans (by rfl)⟩

end MakeAdmin
